import Mathlib

/-!
Verification of the order lifecycle and payout engine of kiosweb3-be.

The development shallowly embeds the relevant TypeScript sources:
  * `src/modules/orders/orders.service.ts`   (createOrder, processOrder,
    cancelOrder, expirePendingOrders, handlePaymentSuccess)
  * `src/modules/vouchers/vouchers.service.ts` (validateAndReserveVoucher,
    releaseVoucher)
  * `src/modules/inventory` (reserveInventory, releaseInventory,
    deductInventory)
  * `src/modules/blockchain/blockchain.service.ts` (sendNativeToken)
  * `src/modules/payments/payments.routes.ts` (POST /webhook handler)
  * `src/bot/handlers/buy.handler.ts` (parseAmount)

Database rows become Lean structures; Prisma `updateMany` conditional
updates become conditionals on the state; `Decimal` amounts become `Rat`;
IDR amounts become `Int`; thrown exceptions become `Except` errors.
External effects (blockchain RPC, payment-gateway queries, injected DB
faults) are passed in as explicit oracle values, so a single invocation of
each routine is a pure function of the state and the oracles.
-/

deriving instance DecidableEq for Except

namespace Kiosweb3

/-- Order status enum, from `prisma` schema / `OrderStatus`. -/
inductive OrderStatus
  | PENDING
  | PAID
  | PROCESSING
  | SUCCESS
  | FAILED
  | CANCELLED
  | EXPIRED
deriving DecidableEq, Repr, BEq

/-- Inventory row for one `(chain, symbol)` key: `balance` and `reserved`
are Prisma Decimals.  Decimals are exact decimal numbers and the only
operations the embedded code applies to them are comparison, addition,
subtraction and `min`, so they are embedded as integers in a fixed
base-unit scaling (a power of ten), which preserves all of those
operations exactly. -/
structure Inventory where
  balance : Int
  reserved : Int
deriving DecidableEq, Repr

/-- Voucher row (the fields read and written by
`vouchers.service.ts`).  `expired` stands for
`expiresAt && expiresAt < new Date()`; `ownerId` is the optional `userId`
column. -/
structure VoucherRow where
  usageCount : Int
  maxUsage : Int
  isActive : Bool
  expired : Bool
  ownerId : Option Nat
  minAmount : Int
  value : Int
deriving DecidableEq, Repr

/-! ## Inventory operations (inventory.service) -/

/-- `releaseInventory` net state change, from the inventory service:
the raw `UPDATE ... WHERE reserved >= amount` decrements when it matches;
on a zero-row update the fallback releases `min(reserved, amount)` when
`reserved > 0`, resets a negative `reserved` to 0, and otherwise leaves
the row alone. -/
def releaseInventoryPure (amount : Int) (inv : Inventory) : Inventory :=
  if amount ≤ inv.reserved then
    { inv with reserved := inv.reserved - amount }
  else if 0 < inv.reserved then
    { inv with reserved := inv.reserved - min inv.reserved amount }
  else if inv.reserved < 0 then
    { inv with reserved := 0 }
  else
    inv

/-- `deductInventory`: decrement both `balance` and `reserved`; negative
results are only logged, never rolled back. -/
def deductInventory (amount : Int) (inv : Inventory) : Inventory :=
  { balance := inv.balance - amount, reserved := inv.reserved - amount }

/-- `reserveInventory`: under a row lock, succeed (incrementing
`reserved`) iff `balance - reserved ≥ amount`. -/
def reserveInventory (amount : Int) (inv : Inventory) : Option Inventory :=
  if amount ≤ inv.balance - inv.reserved then
    some { inv with reserved := inv.reserved + amount }
  else
    none

/-! ## Voucher operations (vouchers.service) -/

/-- Errors thrown by `validateAndReserveVoucher`. -/
inductive VoucherErr
  | inactive
  | expired
  | quotaExceeded
  | notYours
  | minSpend
  | alreadyUsed
  | activeOrder
  | quotaRanOut
deriving DecidableEq, Repr

/-- `validateAndReserveVoucher(code, userId, orderAmount, tx)`.

The row has already been fetched (`v`); `successfullyUsed` and
`activeOrder` are the results of the two double-dipping order queries
(they are only consulted for public multi-use vouchers, exactly as in the
source).  The final step is the atomic conditional update
`where usageCount < maxUsage, data usageCount += 1`; a zero-row update
(Prisma RecordsNotFound) is rethrown as the quota-ran-out error. -/
def ownedByOther (ownerId : Option Nat) (userId : Nat) : Bool :=
  match ownerId with
  | some u => u != userId
  | none => false

def validateAndReserveVoucher (userId : Nat) (orderAmount : Int)
    (successfullyUsed activeOrder : Bool) (v : VoucherRow) :
    Except VoucherErr VoucherRow :=
  if !v.isActive then .error .inactive
  else if v.expired then .error .expired
  else if v.maxUsage ≤ v.usageCount then .error .quotaExceeded
  else if ownedByOther v.ownerId userId then .error .notYours
  else if orderAmount < v.minAmount then .error .minSpend
  else if v.ownerId = none ∧ 1 < v.maxUsage ∧ successfullyUsed then
    .error .alreadyUsed
  else if v.ownerId = none ∧ 1 < v.maxUsage ∧ activeOrder then
    .error .activeOrder
  else if v.usageCount < v.maxUsage then
    .ok { v with usageCount := v.usageCount + 1 }
  else
    .error .quotaRanOut

/-- `releaseVoucher` net state change: the atomic conditional update
`where usageCount > 0, data usageCount -= 1`; a zero-row update is
ignored. -/
def releaseVoucherPure (v : VoucherRow) : VoucherRow :=
  if 0 < v.usageCount then { v with usageCount := v.usageCount - 1 } else v

/-! ## Order rows and state -/

/-- The order columns read and written by `orders.service.ts`.
Timestamps are epoch milliseconds (`Int`); `midtransId` is the external
payment-gateway id. -/
structure OrderRow where
  status : OrderStatus
  txHash : Option String
  createdAt : Int
  updatedAt : Int
  paidAt : Option Int
  completedAt : Option Int
  amountIdr : Int
  totalPay : Int
  amountToken : Int
  voucherId : Option Nat
  midtransId : Option String
deriving DecidableEq, Repr

/-- The slice of the database one order's lifecycle touches: the order
row, its `(chain, symbol)` inventory row, and the voucher row its
`voucherId` references (when present). -/
structure OrderDb where
  order : OrderRow
  inv : Inventory
  voucher : Option VoucherRow
deriving DecidableEq, Repr

/-! ## Fault-injectable release wrappers

`releaseInventory` and `releaseVoucher` both wrap their database writes in
`try/catch` blocks that log and swallow every error.  To state that no
exception propagates we inject a fault flag standing for "the database
update threw here"; the `...Attempt` definition is the body before the
catch, the outer definition is the exported function including the
catch. -/

/-- The body of `releaseInventory` before its `catch`: the update can
throw (fault). -/
def releaseInventoryAttempt (fault : Bool) (amount : Int) (inv : Inventory) :
    Except String Inventory :=
  if fault then .error "db error" else .ok (releaseInventoryPure amount inv)

/-- `releaseInventory`: the whole body is inside `try { ... } catch
(error) { logger.error(...) }` — every internal error is logged and
swallowed, so the caller always sees a normal return. -/
def releaseInventory (fault : Bool) (amount : Int) (inv : Inventory) :
    Except String Inventory :=
  match releaseInventoryAttempt fault amount inv with
  | .ok i => .ok i
  | .error _ => .ok inv

/-- The body of `releaseVoucher` before its `catch`. -/
def releaseVoucherAttempt (fault : Bool) (v : VoucherRow) :
    Except String VoucherRow :=
  if fault then .error "db error" else .ok (releaseVoucherPure v)

/-- `releaseVoucher`: `try { updateMany ... } catch (e) { logger.warn(...) }`
— errors are logged and swallowed. -/
def releaseVoucher (fault : Bool) (v : VoucherRow) :
    Except String VoucherRow :=
  match releaseVoucherAttempt fault v with
  | .ok v' => .ok v'
  | .error _ => .ok v

/-- Fault flags for the two release steps. -/
structure Faults where
  inv : Bool
  vch : Bool
deriving DecidableEq, Repr

def noFaults : Faults := ⟨false, false⟩

/-! ## cancelOrder (orders.service) -/

/-- `cancelOrder`: the conditional `updateMany {id, status: PENDING} →
CANCELLED`; a zero-row update is idempotent when the order is already
`CANCELLED` and a user-visible error otherwise; after the effecting
update, inventory and (if present) the voucher are released. -/
def cancelOrder (f : Faults) (s : OrderDb) : Except String OrderDb :=
  if s.order.status = .PENDING then
    let ord := { s.order with status := OrderStatus.CANCELLED }
    match releaseInventory f.inv s.order.amountToken s.inv with
    | .error e => .error e
    | .ok inv1 =>
      match s.order.voucherId, s.voucher with
      | some _, some v =>
        match releaseVoucher f.vch v with
        | .error e => .error e
        | .ok v' => .ok { order := ord, inv := inv1, voucher := some v' }
      | _, _ => .ok { order := ord, inv := inv1, voucher := s.voucher }
  else if s.order.status = .CANCELLED then .ok s
  else .error "Only pending orders can be cancelled"

/-! ## handlePaymentSuccess and the expiry sweep (orders.service) -/

/-- `handlePaymentSuccess`: conditional `updateMany {id, status: PENDING}
→ PAID, paidAt := now`; on a zero-row update nothing happens and no
payout job is enqueued.  The returned flag records whether a payout job
was enqueued. -/
def handlePaymentSuccess (now : Int) (s : OrderDb) : OrderDb × Bool :=
  if s.order.status = .PENDING then
    ({ s with order := { s.order with status := .PAID, paidAt := some now } }, true)
  else (s, false)

/-- 70-minute grace period of the expiry sweep, in milliseconds. -/
def gracePeriodMs : Int := 70 * 60 * 1000

/-- Outcome of the `getTransactionStatus` gateway query for one order, as
classified by the sweep (`isTransactionSuccess` / `isTransactionPending`
/ neither), or the query itself throwing. -/
inductive GatewayOutcome
  | success
  | pending
  | failedOrExpired
  | queryError
deriving DecidableEq, Repr

/-- The tail of an expiry-sweep iteration: the conditional `updateMany
{id, status: PENDING} → EXPIRED` (a zero-row update skips the order),
then inventory and voucher release. -/
def expireStep (f : Faults) (s : OrderDb) : Except String OrderDb :=
  if s.order.status = .PENDING then
    let ord := { s.order with status := OrderStatus.EXPIRED }
    match releaseInventory f.inv s.order.amountToken s.inv with
    | .error e => .error e
    | .ok inv1 =>
      match s.order.voucherId, s.voucher with
      | some _, some v =>
        match releaseVoucher f.vch v with
        | .error e => .error e
        | .ok v' => .ok { order := ord, inv := inv1, voucher := some v' }
      | _, _ => .ok { order := ord, inv := inv1, voucher := s.voucher }
  else .ok s

/-- One iteration of `expirePendingOrders` over an order already matched
by the query `status = PENDING AND createdAt < cutoff`.  When the order
has a `midtransId` the gateway is consulted first: success diverts to
`handlePaymentSuccess`; pending within the 70-minute grace period skips;
a failed gateway query skips (protecting a potentially completed
payment); otherwise the order is expired. -/
def expireOne (f : Faults) (now : Int) (gw : GatewayOutcome) (s : OrderDb) :
    Except String OrderDb :=
  match s.order.midtransId with
  | some _ =>
    match gw with
    | .success => .ok (handlePaymentSuccess now s).1
    | .pending =>
      if now - s.order.createdAt < gracePeriodMs then .ok s
      else expireStep f s
    | .failedOrExpired => expireStep f s
    | .queryError => .ok s
  | none => expireStep f s

/-! ## String helpers (for the error classifier and the amount parser) -/

/-- `String.toLowerCase` over the character list (ASCII behaviour, which
is all the classifier's patterns need). -/
def lowerString (s : String) : String := String.mk (s.toList.map Char.toLower)

def listStartsWith : List Char → List Char → Bool
  | [], _ => true
  | _ :: _, [] => false
  | a :: as, b :: bs => a == b && listStartsWith as bs

def listContainsSub (needle : List Char) : List Char → Bool
  | [] => listStartsWith needle []
  | c :: t => listStartsWith needle (c :: t) || listContainsSub needle t

/-- `haystack.includes(needle)`. -/
def strContains (hay needle : String) : Bool :=
  listContainsSub needle.toList hay.toList

/-! ## sendNativeToken (blockchain.service) -/

/-- What the RPC/chain did for one `sendNativeToken` call: either
`wallet.sendTransaction` threw (no hash exists), or a transaction with a
hash was broadcast and the confirmation wait `tx.wait(confs)` then
returned a good receipt, returned a null/reverted receipt, or threw. -/
inductive WaitOutcome
  | ok
  | reverted
  | threw (msg : String)
deriving DecidableEq, Repr

inductive RpcOutcome
  | sendThrew (msg : String)
  | sent (hash : String) (wait : WaitOutcome)
deriving DecidableEq, Repr

/-- Errors raised by `sendNativeToken`: the distinguished
`TxBroadcastedError` (carrying the broadcast hash) versus everything
else.  (The `runWithLock` chain mutex wraps the body; it serialises
concurrent sends per chain and is not itself the subject of a claim, so
the embedding covers the body inside the lock.) -/
inductive SendErr
  | txBroadcasted (hash : String) (msg : String)
  | other (msg : String)
deriving DecidableEq, Repr

/-- `sendNativeToken` inside the chain lock: on a confirmed receipt the
hash is returned; a null/status-0 receipt throws
`'Transaction reverted on-chain'` inside the inner `try`, so — like any
other wait failure while `tx.hash` exists — it is rethrown as
`TxBroadcastedError('Transaction broadcasted but not confirmed: ' + msg,
tx.hash)`; an error from `sendTransaction` itself propagates unchanged. -/
def sendNativeToken : RpcOutcome → Except SendErr String
  | .sendThrew m => .error (.other m)
  | .sent h w =>
    match w with
    | .ok => .ok h
    | .reverted =>
        .error (.txBroadcasted h
          "Transaction broadcasted but not confirmed: Transaction reverted on-chain")
    | .threw m =>
        .error (.txBroadcasted h ("Transaction broadcasted but not confirmed: " ++ m))

/-! ## processOrder (orders.service) -/

/-- The safe-to-refund error classifier of `processOrder`: the lowercased
error text must contain one of the five known-safe patterns. -/
def isSafeToRefund (msg : String) : Bool :=
  let m := lowerString msg
  strContains m "insufficient funds" ||
  strContains m "gas limit" ||
  strContains m "reverted" ||
  strContains m "nonce too low" ||
  strContains m "replacement fee too low"

/-- The payout lock: the conditional
`updateMany {id, status: PAID, txHash: null} → {status: PROCESSING,
updatedAt: now}`.  `some` is a one-row update (lock owned), `none` a
zero-row update. -/
def payoutLockAcquire (now : Int) (o : OrderRow) : Option OrderRow :=
  if o.status = .PAID ∧ o.txHash = none then
    some { o with status := OrderStatus.PROCESSING, updatedAt := now }
  else none

/-- `STALE_THRESHOLD_MS` of the zombie-worker steal, 10 minutes. -/
def staleThresholdMs : Int := 10 * 60 * 1000

/-- How the Phase-0 lock loop of `processOrder` exits. -/
inductive LockPhase
  | acquired (o : OrderRow)
  | recoverHash (o : OrderRow)
  | idempotentSuccess
  | invalidStatus (st : OrderStatus)
  | exhausted (o : OrderRow)
deriving DecidableEq, Repr

/-- The Phase-0 loop (`MAX_LOCK_ATTEMPTS = 3`), single-invocation
sequential semantics (no concurrent writer mutates the row between the
steps of one iteration, so the zombie steal — a conditional update
guarded on the exact `updatedAt` just read — succeeds when attempted):
try the conditional lock update; on a zero-row update analyse the row:
`SUCCESS` returns idempotently (Case A), a non-null `txHash` breaks to
the recovery path (Case B), a stale `PROCESSING` row is stolen by
refreshing `updatedAt` (Case C), a fresh `PROCESSING` row waits and
retries, and any other status aborts (Case D). -/
def lockLoop (now : Int) : Nat → OrderRow → LockPhase
  | 0, o => .exhausted o
  | Nat.succ n, o =>
    match payoutLockAcquire now o with
    | some o' => .acquired o'
    | none =>
      if o.status = .SUCCESS then .idempotentSuccess
      else if o.txHash ≠ none then .recoverHash o
      else if o.status = .PROCESSING then
        if staleThresholdMs < now - o.updatedAt then
          .acquired { o with updatedAt := now }
        else lockLoop now n o
      else .invalidStatus o.status

/-- Phase 0.5 recovery: `updateMany {id, txHash, status ≠ SUCCESS} →
{status: SUCCESS, completedAt: now}` followed by `deductInventory`
(whose errors the source swallows with an empty `catch`). -/
def recoverFinalize (now : Int) (s : OrderDb) : OrderDb :=
  if s.order.status ≠ .SUCCESS then
    { s with
        order := { s.order with status := .SUCCESS, completedAt := some now },
        inv := deductInventory s.order.amountToken s.inv }
  else s

/-- Phase 2: in one transaction set `status := SUCCESS`, `txHash`,
`completedAt := now` and deduct inventory. -/
def finalizeSuccess (now : Int) (h : String) (s : OrderDb) : OrderDb :=
  { s with
      order := { s.order with
                   status := .SUCCESS, txHash := some h, completedAt := some now },
      inv := deductInventory s.order.amountToken s.inv }

/-- Result of one `processOrder` invocation: normal return, or a raised
error (the DB state at raise time is returned alongside). -/
inductive POutcome
  | ok
  | raised (msg : String)
deriving DecidableEq, Repr

/-- `processOrder(orderId)`, one invocation under sequential semantics,
with the blockchain modelled by the `rpc` oracle and the Phase-2 database
transaction assumed healthy (its failure/retry path changes no claim
here).

Phase 0: the lock loop.  Phase 0.5: refetch; a non-null `txHash` routes
to recovery (finalize to SUCCESS + deduct, never a second send); without
the lock, a `SUCCESS` row returns and anything else raises.  Phase 1:
`sendNativeToken`; a `TxBroadcastedError` is treated as a successful send
with its hash; any other error is classified — safe errors set
`status := FAILED` and release inventory (note: only inventory; the
voucher row is not touched on this path), ambiguous errors re-raise and
leave the row `PROCESSING`.  Phase 2: finalize to SUCCESS with the
hash and deduct inventory. -/
def processOrder (now : Int) (rpc : RpcOutcome) (s : OrderDb) :
    POutcome × OrderDb :=
  match lockLoop now 3 s.order with
  | .idempotentSuccess => (.ok, s)
  | .invalidStatus _ => (.raised "Order status invalid for processing", s)
  | .recoverHash o1 => (.ok, recoverFinalize now { s with order := o1 })
  | .exhausted o1 =>
    let s1 : OrderDb := { s with order := o1 }
    if o1.txHash ≠ none then (.ok, recoverFinalize now s1)
    else if o1.status = .SUCCESS then (.ok, s1)
    else (.raised "Could not acquire lock", s1)
  | .acquired o1 =>
    let s1 : OrderDb := { s with order := o1 }
    if o1.txHash ≠ none then (.ok, recoverFinalize now s1)
    else
      match sendNativeToken rpc with
      | .ok h => (.ok, finalizeSuccess now h s1)
      | .error (.txBroadcasted h _) => (.ok, finalizeSuccess now h s1)
      | .error (.other msg) =>
        if isSafeToRefund msg then
          (.ok, { s1 with
                    order := { s1.order with status := .FAILED },
                    inv := releaseInventoryPure s1.order.amountToken s1.inv })
        else (.raised msg, s1)

/-! ## Webhook handler (payments.routes) -/

/-- Classification of `transaction_status`/`fraud_status` by
`isTransactionSuccess` / `isTransactionFailed` / `isTransactionPending`. -/
inductive TxnClass
  | success
  | failed
  | pending
deriving DecidableEq, Repr

/-- The order columns the webhook handler reads. -/
structure WebhookOrder where
  status : OrderStatus
  totalPay : Rat
  amountIdr : Rat
deriving DecidableEq, Repr

/-- What the handler replies and which state-changing service call it
makes. -/
inductive WebhookAction
  | noop
  | paymentSuccess
  | cancelOrd
deriving DecidableEq, Repr

structure WebhookReply where
  httpStatus : Nat
  action : WebhookAction
deriving DecidableEq, Repr

/-- `Math.abs`. -/
def ratAbs (x : Rat) : Rat := if x < 0 then -x else x

/-- `POST /webhook`: signature check, lookup by `midtransId`, the amount
check (`expected = totalPay > 0 ? totalPay : amountIdr`, `tolerance =
max(expected * 0.005, 1000)`, mismatch beyond tolerance returns 200
without touching the order), the idempotency check, then the transaction
classification.  JS number arithmetic is embedded as exact rationals. -/
def webhookHandler (sigValid : Bool) (order : Option WebhookOrder)
    (grossAmount : Rat) (txn : TxnClass) : WebhookReply :=
  if !sigValid then ⟨400, .noop⟩
  else
    match order with
    | none => ⟨200, .noop⟩
    | some o =>
      let expectedAmount := if 0 < o.totalPay then o.totalPay else o.amountIdr
      let tolerance := max (expectedAmount * (5 / 1000)) 1000
      let amountDiff := ratAbs (grossAmount - expectedAmount)
      if tolerance < amountDiff then ⟨200, .noop⟩
      else if o.status ≠ .PENDING then ⟨200, .noop⟩
      else
        match txn with
        | .success => ⟨200, .paymentSuccess⟩
        | .failed => ⟨200, .cancelOrd⟩
        | .pending => ⟨200, .noop⟩

/-- The expected amount in the words of the spec (for the claim about the
handler). -/
def expectedAmountSpec (o : WebhookOrder) : Rat :=
  if 0 < o.totalPay then o.totalPay else o.amountIdr

/-- The tolerance in the words of the spec: `max(0.5% × expected,
1000 IDR)`. -/
def toleranceSpec (o : WebhookOrder) : Rat :=
  max (expectedAmountSpec o * (5 / 1000)) 1000

/-! ## parseAmount (bot/handlers/buy.handler) -/

def dropWs (cs : List Char) : List Char :=
  cs.dropWhile (fun c => c.isWhitespace)

/-- `text.trim()` over the character list. -/
def trimList (cs : List Char) : List Char :=
  ((dropWs cs).reverse |> dropWs).reverse

/-- The `rp\.?` alternative of `^(rp\.?|idr)\s*` (case-insensitive),
returning the remainder with trailing whitespace consumed. -/
def stripRp : List Char → Option (List Char)
  | a :: b :: rest =>
    if a.toLower = 'r' ∧ b.toLower = 'p' then
      some (match rest with
            | '.' :: rest2 => dropWs rest2
            | _ => dropWs rest)
    else none
  | _ => none

/-- The `idr` alternative. -/
def stripIdr : List Char → Option (List Char)
  | a :: b :: c :: rest =>
    if a.toLower = 'i' ∧ b.toLower = 'd' ∧ c.toLower = 'r' then some (dropWs rest)
    else none
  | _ => none

/-- `cleaned.replace(/^(rp\.?|idr)\s*/i, '')`: one anchored replacement,
trying the alternatives in order. -/
def stripCurrencyHead (cs : List Char) : List Char :=
  match stripRp cs with
  | some r => r
  | none =>
    match stripIdr cs with
    | some r => r
    | none => cs

/-- `(\.\d{3})+$`: one or more dot-plus-three-digit groups, ending the
string. -/
def groupsOf3 : List Char → Bool
  | '.' :: a :: b :: c :: rest =>
    a.isDigit && b.isDigit && c.isDigit && (rest.isEmpty || groupsOf3 rest)
  | _ => false

/-- `/^\d{1,3}(\.\d{3})+$/`: the Indonesian thousand-separator shape. -/
def idFormat (cs : List Char) : Bool :=
  let ds := cs.takeWhile Char.isDigit
  let rest := cs.dropWhile Char.isDigit
  decide (1 ≤ ds.length) && decide (ds.length ≤ 3) && groupsOf3 rest

/-- `cleaned.substring(0, cleaned.indexOf('.'))` when a dot exists,
otherwise the whole string. -/
def truncAtDot (cs : List Char) : List Char :=
  cs.takeWhile (fun c => c != '.')

def digitsToNat (cs : List Char) : Nat :=
  cs.foldl (fun acc c => acc * 10 + (c.toNat - 48)) 0

/-- `parseAmount(text)` from the buy handler: trim, strip a currency
head, drop whitespace; if the Indonesian thousand-separator shape
matches, drop the dots; otherwise drop commas and truncate at the first
remaining dot; the result must be all digits and parse to a positive
integer of at most `10^12`. -/
def parseAmount (text : String) : Option Nat :=
  let cleaned0 := trimList text.toList
  let cleaned1 := stripCurrencyHead cleaned0
  let cleaned2 := cleaned1.filter (fun c => !c.isWhitespace)
  let cleaned3 :=
    if idFormat cleaned2 then cleaned2.filter (fun c => c != '.')
    else truncAtDot (cleaned2.filter (fun c => c != ','))
  if cleaned3.isEmpty || !cleaned3.all Char.isDigit then none
  else
    let amount := digitsToNat cleaned3
    if amount = 0 ∨ 1000000000000 < amount then none
    else some amount

/-! ## createOrder (orders.service) -/

/-- Errors `createOrder` can throw. -/
inductive CreateErr
  | pendingExists
  | insufficientInventory
  | voucherErr (e : VoucherErr)
deriving DecidableEq, Repr

/-- The columns of the inserted order relevant to the claims. -/
structure CreatedOrder where
  amountIdr : Int
  amountToken : Int
  status : OrderStatus
deriving DecidableEq, Repr

/-- `createOrder` in one transaction: reject when a `PENDING` order
exists; reserve inventory; when a voucher code is supplied,
validate-and-reserve it in the same transaction and set
`finalAmountIdr = Math.max(0, amountIdr - voucher.value)`; insert the
order as `PENDING`.  An error anywhere aborts the transaction, rolling
back the inventory and voucher reservations (so the caller's state is
unchanged on `.error`). -/
def createOrder (pendingCount : Nat) (userId : Nat) (amountIdr : Int)
    (amountToken : Int) (voucherReq : Option (VoucherRow × Bool × Bool))
    (inv : Inventory) :
    Except CreateErr (CreatedOrder × Inventory × Option VoucherRow) :=
  if 1 ≤ pendingCount then .error .pendingExists
  else
    match reserveInventory amountToken inv with
    | none => .error .insufficientInventory
    | some inv1 =>
      match voucherReq with
      | none =>
        .ok ({ amountIdr := amountIdr, amountToken := amountToken,
               status := .PENDING }, inv1, none)
      | some (v, su, ao) =>
        match validateAndReserveVoucher userId amountIdr su ao v with
        | .error e => .error (.voucherErr e)
        | .ok v' =>
          .ok ({ amountIdr := max 0 (amountIdr - v.value),
                 amountToken := amountToken, status := .PENDING }, inv1, some v')

/-! ## C5: voucher usage-count invariant -/

/-- **C5.** For every voucher, `0 ≤ usage_count ≤ max_usage` is preserved:
`validateAndReserveVoucher` increments only under the atomic condition
`usageCount < maxUsage` (a zero-row update being rejected as quota
exhausted), and `releaseVoucher` decrements only under the atomic
condition `usageCount > 0` (a zero-row update being ignored). -/
theorem voucher_usage_invariant (v : VoucherRow)
    (h0 : 0 ≤ v.usageCount) (h1 : v.usageCount ≤ v.maxUsage) :
    (∀ uid amt su ao v',
        validateAndReserveVoucher uid amt su ao v = .ok v' →
          v.usageCount < v.maxUsage ∧
          v'.usageCount = v.usageCount + 1 ∧
          v'.maxUsage = v.maxUsage ∧
          0 ≤ v'.usageCount ∧ v'.usageCount ≤ v'.maxUsage) ∧
    (∀ uid amt su ao, v.usageCount = v.maxUsage →
        ∃ e, validateAndReserveVoucher uid amt su ao v = .error e) ∧
    ((releaseVoucherPure v).maxUsage = v.maxUsage ∧
      0 ≤ (releaseVoucherPure v).usageCount ∧
      (releaseVoucherPure v).usageCount ≤ (releaseVoucherPure v).maxUsage) ∧
    (v.usageCount = 0 → releaseVoucherPure v = v) := by
  refine ⟨?_, ?_, ?_, ?_⟩
  · intro uid amt su ao v' h
    unfold validateAndReserveVoucher at h
    split_ifs at h with hA hB hC hD hE hF hG hH
    · cases h
      exact ⟨hH, rfl, rfl, show (0 : Int) ≤ v.usageCount + 1 by omega,
        show v.usageCount + 1 ≤ v.maxUsage by omega⟩
  · intro uid amt su ao hq
    unfold validateAndReserveVoucher
    split_ifs with hA hB hC hD hE hF hG hH
    · exact ⟨.inactive, rfl⟩
    · exact ⟨.expired, rfl⟩
    · exact ⟨.quotaExceeded, rfl⟩
    · exact ⟨.notYours, rfl⟩
    · exact ⟨.minSpend, rfl⟩
    · exact ⟨.alreadyUsed, rfl⟩
    · exact ⟨.activeOrder, rfl⟩
    · omega
    · exact ⟨.quotaRanOut, rfl⟩
  · unfold releaseVoucherPure
    split_ifs with h
    · exact ⟨rfl, show (0 : Int) ≤ v.usageCount - 1 by omega,
        show v.usageCount - 1 ≤ v.maxUsage by omega⟩
    · exact ⟨rfl, h0, h1⟩
  · intro hz
    unfold releaseVoucherPure
    split_ifs with h
    · omega
    · rfl

/-- Witness for `voucher_usage_invariant` at a concrete voucher row. -/
theorem voucher_usage_invariant_witness :
    ((0 : Int) ≤ 1 ∧ (1 : Int) ≤ 3) ∧
      (releaseVoucherPure ⟨1, 3, true, false, none, 0, 10000⟩).maxUsage = 3 :=
  ⟨⟨by decide, by decide⟩,
    (voucher_usage_invariant ⟨1, 3, true, false, none, 0, 10000⟩
      (by decide) (by decide)).2.2.1.1⟩

/-! ## C9: voucher discount is floored at zero -/

/-- **C9.** When `createOrder` applies a voucher, the stored `amountIdr`
of the created order is `Math.max(0, amountIdr - voucher.value)`; in
particular it is never negative, and a voucher worth at least the order
amount yields a stored `amountIdr` of exactly 0. -/
theorem createOrder_discount_floor (pc uid : Nat) (amountIdr : Int)
    (amountToken : Int) (v : VoucherRow) (su ao : Bool) (inv : Inventory)
    (ord : CreatedOrder) (inv' : Inventory) (vres : Option VoucherRow)
    (h : createOrder pc uid amountIdr amountToken (some (v, su, ao)) inv =
          .ok (ord, inv', vres)) :
    ord.amountIdr = max 0 (amountIdr - v.value) ∧
    0 ≤ ord.amountIdr ∧
    (amountIdr ≤ v.value → ord.amountIdr = 0) := by
  unfold createOrder at h
  split at h
  · exact Except.noConfusion h
  · rcases hr : reserveInventory amountToken inv with _ | inv1
    · rw [hr] at h; exact Except.noConfusion h
    · rw [hr] at h
      have h2 : (match validateAndReserveVoucher uid amountIdr su ao v with
          | Except.error e => Except.error (CreateErr.voucherErr e)
          | Except.ok v' =>
            Except.ok (({ amountIdr := max 0 (amountIdr - v.value),
                          amountToken := amountToken,
                          status := OrderStatus.PENDING } : CreatedOrder),
                       inv1, some v')) = Except.ok (ord, inv', vres) := h
      rcases hv : validateAndReserveVoucher uid amountIdr su ao v with e | v'
      · rw [hv] at h2; exact Except.noConfusion h2
      · rw [hv] at h2
        cases h2
        exact ⟨rfl, le_max_left 0 _, fun hle => max_eq_left (by omega)⟩

/-- Witness for `createOrder_discount_floor`: a 100000-IDR voucher on a
50000-IDR order stores `amountIdr = 0`. -/
theorem createOrder_discount_floor_witness :
    (⟨0, 10, OrderStatus.PENDING⟩ : CreatedOrder).amountIdr = 0 :=
  (createOrder_discount_floor 0 7 50000 10
      ⟨0, 1, true, false, none, 0, 100000⟩ false false ⟨100, 0⟩
      ⟨0, 10, .PENDING⟩ ⟨100, 10⟩
      (some ⟨1, 1, true, false, none, 0, 100000⟩)
      (by decide)).2.2 (by decide)

/-! ## C6: webhook amount check -/

/-- **C6.** For a valid-signature webhook whose order is found: the
expected amount is `totalPay` when positive and `amountIdr` otherwise,
the tolerance is `max(0.5% × expected, 1000)`, and whenever
`|paid − expected|` exceeds that tolerance the handler replies HTTP 200
and performs no state-changing call on the order. -/
theorem webhook_amount_mismatch (o : WebhookOrder) (paid : Rat)
    (txn : TxnClass)
    (hmis : toleranceSpec o < ratAbs (paid - expectedAmountSpec o)) :
    webhookHandler true (some o) paid txn = ⟨200, .noop⟩ := by
  unfold toleranceSpec expectedAmountSpec at hmis
  unfold webhookHandler
  simp only [Bool.not_true, Bool.false_eq_true, if_false]
  rw [if_pos hmis]

/-- Witness for `webhook_amount_mismatch`: order with `totalPay =
104000` and a reported payment of 200000 (difference 96000, tolerance
1000). -/
theorem webhook_amount_mismatch_witness :
    toleranceSpec ⟨.PENDING, 104000, 100000⟩ <
        ratAbs ((200000 : Rat) - expectedAmountSpec ⟨.PENDING, 104000, 100000⟩) ∧
      webhookHandler true (some ⟨.PENDING, 104000, 100000⟩) 200000 .pending =
        ⟨200, .noop⟩ := by
  have hm : toleranceSpec ⟨.PENDING, 104000, 100000⟩ <
      ratAbs ((200000 : Rat) - expectedAmountSpec ⟨.PENDING, 104000, 100000⟩) := by
    norm_num [toleranceSpec, expectedAmountSpec, ratAbs, max_def]
  exact ⟨hm, webhook_amount_mismatch ⟨.PENDING, 104000, 100000⟩ 200000 .pending hm⟩

/-! ## C8: the IDR amount parser -/

/-- **C8 (evaluation).** The parser maps `"100.000"` and `"100,000"` to
100000 and rejects `"abc"`, as the claim states; but on
`"Rp 50.000,50"` it yields 50, not the 50000 the claim (and the
function's own doc comment) require: commas are removed first, turning
`50.000,50` into `50.00050`, and everything from the first remaining dot
on is then dropped. -/
theorem parseAmount_eval :
    parseAmount "100.000" = some 100000 ∧
    parseAmount "100,000" = some 100000 ∧
    parseAmount "abc" = none ∧
    parseAmount "Rp 50.000,50" = some 50 ∧
    parseAmount "Rp 50.000,50" ≠ some 50000 := by
  refine ⟨?_, ?_, ?_, ?_, ?_⟩ <;> decide

/-! ## Helper lemmas shared by the claim theorems -/

theorem releaseInventory_ok (fault : Bool) (amount : Int) (inv : Inventory) :
    releaseInventory fault amount inv =
      .ok (if fault then inv else releaseInventoryPure amount inv) := by
  cases fault <;> rfl

theorem releaseVoucher_ok (fault : Bool) (v : VoucherRow) :
    releaseVoucher fault v = .ok (if fault then v else releaseVoucherPure v) := by
  cases fault <;> rfl

theorem processOrder_of_success (now : Int) (rpc : RpcOutcome) (s : OrderDb)
    (h : s.order.status = .SUCCESS) : processOrder now rpc s = (.ok, s) := by
  have hl : lockLoop now 3 s.order = .idempotentSuccess := by
    simp [lockLoop, payoutLockAcquire, h]
  unfold processOrder
  rw [hl]

/-! ## C7: cancelOrder is idempotent and refuses advanced orders -/

/-- **C7.** `cancelOrder` on a `PENDING` order effects exactly one
`PENDING → CANCELLED` transition, releasing inventory and (when present)
the voucher reservation exactly once; a second call observes the zero-row
conditional update, finds the order `CANCELLED`, and returns idempotently
without releasing anything; and a call on a `PAID`, `PROCESSING` or
`SUCCESS` order raises the user-visible error. -/
theorem cancelOrder_idempotent (s : OrderDb) (h : s.order.status = .PENDING) :
    ∃ s', cancelOrder noFaults s = .ok s' ∧
      s'.order.status = .CANCELLED ∧
      s'.inv = releaseInventoryPure s.order.amountToken s.inv ∧
      s'.voucher = (match s.order.voucherId, s.voucher with
                    | some _, some v => some (releaseVoucherPure v)
                    | _, _ => s.voucher) ∧
      cancelOrder noFaults s' = .ok s' ∧
      (∀ t : OrderDb,
          t.order.status = .PAID ∨ t.order.status = .PROCESSING ∨
            t.order.status = .SUCCESS →
          cancelOrder noFaults t = .error "Only pending orders can be cancelled") := by
  have hall : ∀ t : OrderDb,
      t.order.status = .PAID ∨ t.order.status = .PROCESSING ∨
        t.order.status = .SUCCESS →
      cancelOrder noFaults t = .error "Only pending orders can be cancelled" := by
    intro t ht
    rcases ht with h1 | h1 | h1 <;> simp [cancelOrder, h1]
  rcases hvid : s.order.voucherId with _ | vid <;> rcases hvch : s.voucher with _ | v
  · exact ⟨⟨{ s.order with status := .CANCELLED },
            releaseInventoryPure s.order.amountToken s.inv, s.voucher⟩,
      by simp [cancelOrder, releaseInventory_ok, noFaults, h, hvid, hvch],
      rfl, rfl, by simp [hvid, hvch], by simp [cancelOrder], hall⟩
  · exact ⟨⟨{ s.order with status := .CANCELLED },
            releaseInventoryPure s.order.amountToken s.inv, s.voucher⟩,
      by simp [cancelOrder, releaseInventory_ok, noFaults, h, hvid, hvch],
      rfl, rfl, by simp [hvid, hvch], by simp [cancelOrder], hall⟩
  · exact ⟨⟨{ s.order with status := .CANCELLED },
            releaseInventoryPure s.order.amountToken s.inv, s.voucher⟩,
      by simp [cancelOrder, releaseInventory_ok, noFaults, h, hvid, hvch],
      rfl, rfl, by simp [hvid, hvch], by simp [cancelOrder], hall⟩
  · exact ⟨⟨{ s.order with status := .CANCELLED },
            releaseInventoryPure s.order.amountToken s.inv,
            some (releaseVoucherPure v)⟩,
      by simp [cancelOrder, releaseInventory_ok, releaseVoucher_ok, noFaults,
        h, hvid, hvch],
      rfl, rfl, by simp [hvid, hvch], by simp [cancelOrder], hall⟩

/-- The concrete `PENDING` order used by the C7 witness. -/
def cancelW : OrderDb :=
  { order := { status := .PENDING, txHash := none, createdAt := 0, updatedAt := 0,
               paidAt := none, completedAt := none, amountIdr := 90000,
               totalPay := 0, amountToken := 10, voucherId := some 1,
               midtransId := none },
    inv := { balance := 50, reserved := 10 },
    voucher := some ⟨1, 5, true, false, none, 0, 10000⟩ }

/-- Witness for `cancelOrder_idempotent` at `cancelW`. -/
theorem cancelOrder_idempotent_witness :
    cancelW.order.status = OrderStatus.PENDING ∧
      ∃ s', cancelOrder noFaults cancelW = .ok s' ∧
        s'.order.status = .CANCELLED ∧
        s'.inv = releaseInventoryPure cancelW.order.amountToken cancelW.inv ∧
        s'.voucher = (match cancelW.order.voucherId, cancelW.voucher with
                      | some _, some v => some (releaseVoucherPure v)
                      | _, _ => cancelW.voucher) ∧
        cancelOrder noFaults s' = .ok s' ∧
        (∀ t : OrderDb,
            t.order.status = .PAID ∨ t.order.status = .PROCESSING ∨
              t.order.status = .SUCCESS →
            cancelOrder noFaults t =
              .error "Only pending orders can be cancelled") :=
  ⟨rfl, cancelOrder_idempotent cancelW rfl⟩

/-! ## C10: release steps never propagate exceptions -/

/-- **C10.** `releaseInventory` and `releaseVoucher` catch and log every
internal error (injected here as a fault flag), so they always return
normally; consequently, once `cancelOrder` or the expiry sweep has
effected the `CANCELLED`/`EXPIRED` conditional update, the routine
completes normally with that status in place no matter which release
faults occur. -/
theorem release_steps_never_throw :
    (∀ fault amount inv, releaseInventory fault amount inv =
        .ok (if fault then inv else releaseInventoryPure amount inv)) ∧
    (∀ fault v, releaseVoucher fault v =
        .ok (if fault then v else releaseVoucherPure v)) ∧
    (∀ f s, s.order.status = .PENDING →
        cancelOrder f s = .ok
          { order := { s.order with status := .CANCELLED },
            inv := if f.inv then s.inv
                   else releaseInventoryPure s.order.amountToken s.inv,
            voucher := match s.order.voucherId, s.voucher with
                       | some _, some v =>
                         some (if f.vch then v else releaseVoucherPure v)
                       | _, _ => s.voucher }) ∧
    (∀ f s, s.order.status = .PENDING →
        expireStep f s = .ok
          { order := { s.order with status := .EXPIRED },
            inv := if f.inv then s.inv
                   else releaseInventoryPure s.order.amountToken s.inv,
            voucher := match s.order.voucherId, s.voucher with
                       | some _, some v =>
                         some (if f.vch then v else releaseVoucherPure v)
                       | _, _ => s.voucher }) := by
  refine ⟨releaseInventory_ok, releaseVoucher_ok, ?_, ?_⟩
  · intro f s h
    rcases hvid : s.order.voucherId with _ | vid <;>
      rcases hvch : s.voucher with _ | v <;>
      simp [cancelOrder, releaseInventory_ok, releaseVoucher_ok, h, hvid, hvch]
  · intro f s h
    rcases hvid : s.order.voucherId with _ | vid <;>
      rcases hvch : s.voucher with _ | v <;>
      simp [expireStep, releaseInventory_ok, releaseVoucher_ok, h, hvid, hvch]

/-- Witness for `release_steps_never_throw`: both faults injected on a
concrete `PENDING` order — `cancelOrder` still returns normally with the
order `CANCELLED`. -/
theorem release_steps_never_throw_witness :
    releaseInventory true 5 ⟨10, 3⟩ = .ok ⟨10, 3⟩ ∧
      cancelW.order.status = OrderStatus.PENDING ∧
      cancelOrder ⟨true, true⟩ cancelW = .ok
        { order := { cancelW.order with status := .CANCELLED },
          inv := cancelW.inv,
          voucher := some ⟨1, 5, true, false, none, 0, 10000⟩ } :=
  ⟨release_steps_never_throw.1 true 5 ⟨10, 3⟩, rfl,
    release_steps_never_throw.2.2.1 ⟨true, true⟩ cancelW rfl⟩

/-! ## C1: at-most-once payout lock -/

/-- **C1.** The `PAID → PROCESSING` transition is effected only by the
conditional update matching `status = PAID, txHash = NULL` (the zombie
steal merely refreshes `updatedAt` of a row already `PROCESSING`), and
once it fires the condition can never match again, so at most one caller
acquires the payout lock; a caller finding the order `SUCCESS` returns
with no side effect, and a caller finding a non-null `txHash` on a
non-`SUCCESS` order finalizes it to `SUCCESS` (deducting inventory)
without consulting the blockchain oracle at all. -/
theorem payout_lock_at_most_once (now : Int) (s : OrderDb) (rpc : RpcOutcome) :
    (∀ o o', payoutLockAcquire now o = some o' →
        (o.status = .PAID ∧ o.txHash = none) ∧ o'.status = .PROCESSING ∧
        (∀ now2, payoutLockAcquire now2 o' = none)) ∧
    (∀ fuel o o1, lockLoop now fuel o = .acquired o1 →
        o1.status = .PROCESSING ∧
        ((o.status = .PAID ∧ o.txHash = none ∧
            o1 = { o with status := .PROCESSING, updatedAt := now }) ∨
          (o.status = .PROCESSING ∧ o1 = { o with updatedAt := now }))) ∧
    (s.order.status = .SUCCESS → processOrder now rpc s = (.ok, s)) ∧
    (∀ hsh, s.order.txHash = some hsh → s.order.status ≠ .SUCCESS →
        processOrder now rpc s =
          (.ok, { s with
                    order := { s.order with
                                 status := .SUCCESS, completedAt := some now },
                    inv := deductInventory s.order.amountToken s.inv })) := by
  refine ⟨?_, ?_, ?_, ?_⟩
  · intro o o' hacq
    unfold payoutLockAcquire at hacq
    split_ifs at hacq with hc
    cases hacq
    refine ⟨hc, rfl, fun now2 => ?_⟩
    unfold payoutLockAcquire
    rw [if_neg (by simp)]
  · intro fuel o o1
    induction fuel with
    | zero => intro hL; exact LockPhase.noConfusion hL
    | succ n ih =>
      intro hL
      rw [lockLoop] at hL
      rcases hacq : payoutLockAcquire now o with _ | o2 <;>
        simp only [hacq] at hL
      · split_ifs at hL with h1 h2 h3 h4
        · cases hL
          exact ⟨h3, Or.inr ⟨h3, rfl⟩⟩
        · exact ih hL
      · unfold payoutLockAcquire at hacq
        split_ifs at hacq with hc
        cases hacq
        cases hL
        exact ⟨rfl, Or.inl ⟨hc.1, hc.2, rfl⟩⟩
  · exact fun hs => processOrder_of_success now rpc s hs
  · intro hsh htx hns
    have hl : lockLoop now 3 s.order = .recoverHash s.order := by
      simp [lockLoop, payoutLockAcquire, htx, hns]
    unfold processOrder
    rw [hl]
    simp [recoverFinalize, hns]

/-- The concrete order used by the C1 witness: `PROCESSING` with an
existing hash, i.e. a duplicate delivery after a crash. -/
def payoutW : OrderDb :=
  { order := { status := .PROCESSING, txHash := some "0xabc", createdAt := 0,
               updatedAt := 0, paidAt := some 0, completedAt := none,
               amountIdr := 100000, totalPay := 100000, amountToken := 9,
               voucherId := none, midtransId := some "MT-2" },
    inv := { balance := 20, reserved := 9 },
    voucher := none }

/-- Witness for `payout_lock_at_most_once`: the recovery path finalizes
`payoutW` without a blockchain send (the oracle would throw). -/
theorem payout_lock_at_most_once_witness :
    processOrder 5 (.sendThrew "boom") payoutW =
      (.ok, { payoutW with
                order := { payoutW.order with
                             status := .SUCCESS, completedAt := some 5 },
                inv := deductInventory payoutW.order.amountToken payoutW.inv }) :=
  (payout_lock_at_most_once 5 payoutW (.sendThrew "boom")).2.2.2 "0xabc" rfl
    (by decide)

/-! ## C3: broadcast ambiguity finalizes with the broadcast hash -/

/-- **C3.** When the confirmation wait throws after a successful
broadcast, `sendNativeToken` raises `TxBroadcastedError` carrying the
broadcast hash; `processOrder` catches it and finalizes: the order
reaches `SUCCESS` with that `txHash` and `completedAt` set, inventory is
deducted (never refunded), the voucher is untouched, and every later
invocation returns through the idempotent `SUCCESS` path without a
second send. -/
theorem txBroadcasted_finalizes (now : Int) (hash msg : String) (s : OrderDb)
    (hst : s.order.status = .PAID) (htx : s.order.txHash = none) :
    sendNativeToken (.sent hash (.threw msg)) =
      .error (.txBroadcasted hash
        ("Transaction broadcasted but not confirmed: " ++ msg)) ∧
    ∃ s', processOrder now (.sent hash (.threw msg)) s = (.ok, s') ∧
      s'.order.status = .SUCCESS ∧
      s'.order.txHash = some hash ∧
      s'.order.completedAt = some now ∧
      s'.inv = deductInventory s.order.amountToken s.inv ∧
      s'.voucher = s.voucher ∧
      (∀ now2 rpc2, processOrder now2 rpc2 s' = (.ok, s')) := by
  refine ⟨rfl, finalizeSuccess now hash
    { s with order := { s.order with status := .PROCESSING, updatedAt := now } },
    ?_, rfl, rfl, rfl, rfl, rfl, ?_⟩
  · have hl : lockLoop now 3 s.order =
        .acquired { s.order with status := .PROCESSING, updatedAt := now } := by
      simp [lockLoop, payoutLockAcquire, hst, htx]
    unfold processOrder
    rw [hl]
    simp [htx, sendNativeToken]
  · intro now2 rpc2
    exact processOrder_of_success now2 rpc2 _ rfl

/-- The concrete `PAID` order used by the C3 witness. -/
def broadcastW : OrderDb :=
  { order := { status := .PAID, txHash := none, createdAt := 0, updatedAt := 0,
               paidAt := some 0, completedAt := none, amountIdr := 100000,
               totalPay := 104000, amountToken := 9, voucherId := none,
               midtransId := some "MT-3" },
    inv := { balance := 20, reserved := 9 },
    voucher := none }

/-- Witness for `txBroadcasted_finalizes` at `broadcastW` with hash
`0xdef` and a timed-out confirmation wait. -/
theorem txBroadcasted_finalizes_witness :
    broadcastW.order.status = OrderStatus.PAID ∧
      (sendNativeToken (.sent "0xdef" (.threw "timeout")) =
          .error (.txBroadcasted "0xdef"
            ("Transaction broadcasted but not confirmed: " ++ "timeout")) ∧
        ∃ s', processOrder 7 (.sent "0xdef" (.threw "timeout")) broadcastW =
            (.ok, s') ∧
          s'.order.status = .SUCCESS ∧
          s'.order.txHash = some "0xdef" ∧
          s'.order.completedAt = some 7 ∧
          s'.inv = deductInventory broadcastW.order.amountToken broadcastW.inv ∧
          s'.voucher = broadcastW.voucher ∧
          (∀ now2 rpc2, processOrder now2 rpc2 s' = (.ok, s'))) :=
  ⟨rfl, txBroadcasted_finalizes 7 "0xdef" "timeout" broadcastW rfl rfl⟩

/-! ## C2: safe blockchain failure — FAILED path -/

/-- The concrete state that exhibits the C2 voucher leak: a `PAID` order
holding a voucher reservation (`usageCount = 1`), whose blockchain send
throws the safe error `insufficient funds`. -/
def c2Order : OrderDb :=
  { order := { status := .PAID, txHash := none, createdAt := 0, updatedAt := 0,
               paidAt := some 0, completedAt := none, amountIdr := 40000,
               totalPay := 40000, amountToken := 10, voucherId := some 1,
               midtransId := some "MT-1" },
    inv := { balance := 50, reserved := 10 },
    voucher := some ⟨1, 100, true, false, none, 0, 10000⟩ }

/-- **C2 (evaluation at the failing input).** The safe error is
classified as refundable and the order is set to `FAILED` with its
reserved inventory released — but the voucher row referenced by
`voucherId` is left untouched (`usageCount` stays 1): `processOrder`'s
FAILED branch never calls `releaseVoucher`, although
`vouchers.service.ts`'s own comments state that FAILED orders release
the voucher back (`releaseVoucherPure` would have returned the usage to
0). -/
theorem processOrder_safe_error_keeps_voucher :
    isSafeToRefund "insufficient funds" = true ∧
    (processOrder 0 (.sendThrew "insufficient funds") c2Order).1 = .ok ∧
    (processOrder 0 (.sendThrew "insufficient funds") c2Order).2.order.status =
      .FAILED ∧
    (processOrder 0 (.sendThrew "insufficient funds") c2Order).2.inv =
      releaseInventoryPure c2Order.order.amountToken c2Order.inv ∧
    c2Order.order.voucherId = some 1 ∧
    (processOrder 0 (.sendThrew "insufficient funds") c2Order).2.voucher =
      c2Order.voucher ∧
    (releaseVoucherPure ⟨1, 100, true, false, none, 0, 10000⟩).usageCount = 0 := by
  refine ⟨?_, ?_, ?_, ?_, ?_, ?_, ?_⟩ <;> decide

/-! ## C4: expiry sweep consults the gateway first -/

/-- **C4.** For a `PENDING` order older than the sweep cutoff that has a
`midtransId`, the sweep queries the gateway before expiring: a success
report routes the order through the payment-success path (it becomes
`PAID`, never `EXPIRED`); a pending report on an order younger than 70
minutes leaves the state unchanged; and a failed gateway query leaves
the state unchanged. -/
theorem expiry_sweep_gateway_safety (now cutoff : Int) (m : String)
    (s : OrderDb)
    (hst : s.order.status = .PENDING)
    (_hcut : s.order.createdAt < cutoff)
    (hmid : s.order.midtransId = some m) :
    (expireOne noFaults now .success s =
        .ok { s with order := { s.order with
                                  status := .PAID, paidAt := some now } }) ∧
    (now - s.order.createdAt < gracePeriodMs →
        expireOne noFaults now .pending s = .ok s) ∧
    (expireOne noFaults now .queryError s = .ok s) := by
  refine ⟨?_, ?_, ?_⟩
  · simp [expireOne, hmid, handlePaymentSuccess, hst]
  · intro hg
    simp [expireOne, hmid, hg]
  · simp [expireOne, hmid]

/-- The concrete 16-minute-old `PENDING` order used by the C4 witness. -/
def expireW : OrderDb :=
  { order := { status := .PENDING, txHash := none, createdAt := 0,
               updatedAt := 0, paidAt := none, completedAt := none,
               amountIdr := 100000, totalPay := 100000, amountToken := 9,
               voucherId := none, midtransId := some "MT-4" },
    inv := { balance := 20, reserved := 9 },
    voucher := none }

/-- Witness for `expiry_sweep_gateway_safety`: sweep at minute 16
(cutoff 15 minutes). -/
theorem expiry_sweep_gateway_safety_witness :
    expireW.order.status = OrderStatus.PENDING ∧
      ((expireOne noFaults 960000 .success expireW =
          .ok { expireW with
                  order := { expireW.order with
                               status := .PAID, paidAt := some 960000 } }) ∧
        (960000 - expireW.order.createdAt < gracePeriodMs →
            expireOne noFaults 960000 .pending expireW = .ok expireW) ∧
        (expireOne noFaults 960000 .queryError expireW = .ok expireW)) :=
  ⟨rfl, expiry_sweep_gateway_safety 960000 900000 "MT-4" expireW rfl (by decide)
    rfl⟩

end Kiosweb3
